import Mathlib

/-!
Shallow embedding of the `astrbot_plugin_email_narrator` plugin
(`xmail.py` and `main.py`) and proofs about its incremental-fetch,
parsing, broadcast and watermark behaviour.

Conventions of the embedding:
* IMAP UIDs are modelled as `Nat` (the code stores decimal strings and
  compares them with `int(...)`).
* A mailbox is the server-side list of messages in mailbox order
  (ascending message sequence number); each entry carries its UID and the
  raw mail object.
* External collaborators (BeautifulSoup text extraction, MIME header
  decoding, date parsing) are bundled in an `Externals` record of total
  functions; the Python code wraps each of them in try/except, so in the
  model they never fail.
* Python truthiness of strings/options is modelled explicitly
  (`pyTruthyStr`, `pyOrStr`).
-/

/-- External collaborators used by `xmail.py`: BeautifulSoup text
extraction (`soup.get_text` after dropping script/style), stdlib MIME
header decoding (`email.header.decode_header` joined back together), and
date parsing (`parsedate_tz` + `mktime_tz`, as a timestamp). -/
structure Externals where
  soup_get_text : String → String
  decode_header_impl : String → String
  parsedate_to_timestamp : String → Option Int

/-- One MIME part of a multipart message: its content type, its
Content-Disposition header (as a string, as the code does with
`str(part.get('Content-Disposition'))`), and its decoded payload text
(`none` models a payload whose decode raised). -/
structure MailPart where
  content_type : String
  content_disposition : String
  payload : Option String
deriving DecidableEq, Repr

/-- The body side of a raw mail object: either multipart (a list of
walked parts) or a single part with a content type and decoded payload
(`none` models a decode failure). -/
inductive MailContent where
  | multipart (parts : List MailPart)
  | single (content_type : String) (payload : Option String)
deriving DecidableEq, Repr

/-- A raw protocol mail object as `_parse_email_message` consumes it:
the Subject header (`none` when absent), the Date header, and the body
content. -/
structure RawMail where
  subject : Option String
  date_header : Option String
  content : MailContent
deriving DecidableEq, Repr

/-- Python truthiness of an optional string: `None` and `""` are falsy. -/
def pyTruthyStr : Option String → Bool
  | none => false
  | some s => !(s == "")

/-- Python `a or b` over an optional string (used for
`msg['Subject'] or "（无主题）"`). -/
def pyOrStr (o : Option String) (d : String) : String :=
  match o with
  | none => d
  | some s => if s == "" then d else s

/-- Whether the first character list starts with the second one. -/
def charsStartWith : List Char → List Char → Bool
  | _, [] => true
  | [], _ :: _ => false
  | a :: as, b :: bs => a == b && charsStartWith as bs

/-- Whether the second character list occurs inside the first one. -/
def charsContain : List Char → List Char → Bool
  | [], pat => pat.isEmpty
  | s@(_ :: rest), pat => charsStartWith s pat || charsContain rest pat

/-- Python `needle in haystack` for strings (substring containment). -/
def pyContains (haystack needle : String) : Bool :=
  charsContain haystack.data needle.data

/-- Worker for `pySplitWs`: walks the characters accumulating the
current word (reversed) and emits it at each whitespace run boundary. -/
def splitWsGo : List Char → List Char → List String
  | [], cur => if cur.isEmpty then [] else [⟨cur.reverse⟩]
  | c :: cs, cur =>
    if c.isWhitespace then
      (if cur.isEmpty then splitWsGo cs [] else ⟨cur.reverse⟩ :: splitWsGo cs [])
    else splitWsGo cs (c :: cur)

/-- Python `s.split()`: split on runs of whitespace, dropping empties. -/
def pySplitWs (s : String) : List String :=
  splitWsGo s.data []

/-- `EmailNotifier._decode_header`: MIME decoding is delegated to the
standard library; failures fall back to the raw header text, so the
model applies the external decoder as a total function. -/
def decode_header (ext : Externals) (header : String) : String :=
  ext.decode_header_impl header

/-- `EmailNotifier._parse_date`: absent header gives `None`; otherwise
the stdlib parse, whose failures are swallowed into `None` (folded into
the external function). -/
def parse_date (ext : Externals) (date_str : Option String) : Option Int :=
  match date_str with
  | none => none
  | some s => ext.parsedate_to_timestamp s

/-- `EmailNotifier._html_to_text`: empty input gives `""`; otherwise the
text extracted by BeautifulSoup is whitespace-normalised exactly as the
code does (strip each line, split lines on double spaces, strip the
phrases, join the non-empty chunks with single spaces). -/
def html_to_text (ext : Externals) (html_content : String) : String :=
  if html_content == "" then ""
  else
    let text := ext.soup_get_text html_content
    let lines := (text.splitOn "\n").map String.trim
    let chunks := (lines.map (fun line => (line.splitOn "  ").map String.trim)).flatten
    String.intercalate " " (chunks.filter (fun c => !(c == "")))

/-- The part-walking loop of `EmailNotifier._extract_body` in the
multipart branch: skips attachments, stops at the first text/plain part
whose payload decodes (`break`), remembers the first text/html payload,
and treats decode failures as `continue`. Returns
`(plain_text_body, html_body)` as they stand when the loop ends. -/
def walkParts : List MailPart → Option String → Option String × Option String
  | [], html_body => (none, html_body)
  | p :: rest, html_body =>
    if pyContains p.content_disposition "attachment" then
      walkParts rest html_body
    else if p.content_type == "text/plain" then
      match p.payload with
      | some t => (some t, html_body)
      | none => walkParts rest html_body
    else if p.content_type == "text/html" then
      match html_body with
      | none => walkParts rest p.payload
      | some h => walkParts rest (some h)
    else
      walkParts rest html_body

/-- `EmailNotifier._extract_body`: multipart mail prefers a truthy
plain-text part, then a truthy HTML part (converted), else `""`; a
single-part mail decodes its payload (failure gives `""`) and converts
it when the content type mentions html. -/
def extract_body (ext : Externals) (msg : MailContent) : String :=
  match msg with
  | .multipart parts =>
    let bodies := walkParts parts none
    if pyTruthyStr bodies.1 then bodies.1.getD ""
    else if pyTruthyStr bodies.2 then html_to_text ext (bodies.2.getD "")
    else ""
  | .single content_type payload =>
    match payload with
    | none => ""
    | some text =>
      if pyContains content_type "html" then html_to_text ext text
      else text

/-- The whitespace-collapsed body `' '.join(body.split())` computed by
`_parse_email_message` before truncation. -/
def collapsedBody (ext : Externals) (msg : MailContent) : String :=
  String.intercalate " " (pySplitWs (extract_body ext msg))

/-- `EmailNotifier._parse_email_message`: subject falls back to
"（无主题）" when the header is absent or empty; the body is
whitespace-collapsed, truncated to `text_num` characters with "..."
appended when longer, and replaced by "（无文本内容）" when empty; the
date is parsed best-effort. Returns `(subject, body, date)`. -/
def parse_email_message (ext : Externals) (text_num : Nat) (msg : RawMail) :
    String × String × Option Int :=
  let subject := decode_header ext (pyOrStr msg.subject "（无主题）")
  let email_date := parse_date ext msg.date_header
  let final_body := collapsedBody ext msg.content
  let final_body := if text_num < final_body.length then final_body.take text_num ++ "..." else final_body
  let final_body := if final_body == "" then "（无文本内容）" else final_body
  (subject, final_body, email_date)

/-- The dict `{"subject": ..., "content": ..., "date": ...}` appended to
`new_emails` by `fetch_new_emails`. -/
structure EmailData where
  subject : String
  content : String
  date : Option Int
deriving DecidableEq, Repr

/-- Builds the `EmailData` record from one raw mail via
`_parse_email_message` (the plumbing at `xmail.py` lines 129-131). -/
def parse_email_data (ext : Externals) (text_num : Nat) (raw : RawMail) : EmailData :=
  let parsed := parse_email_message ext text_num raw
  ⟨parsed.1, parsed.2.1, parsed.2.2⟩

/-- One message on the server: its UID together with the raw mail
object, listed in mailbox order (UIDs ascend with sequence numbers). -/
structure MailEntry where
  uid : Nat
  raw : RawMail
deriving DecidableEq, Repr

/-- The notifier state relevant to fetching: the configured body length
cap `text_num` (`self.text_num`). -/
structure EmailNotifier where
  text_num : Nat

/-- The messages matched by the IMAP range search `(UID L:*)`: every
message whose UID is at least `l` (the boundary UID `l` itself is
included by the search). -/
def uid_range_search (mailbox : List MailEntry) (l : Nat) : List MailEntry :=
  mailbox.filter (fun e => decide (l ≤ e.uid))

/-- The entries that survive the inner per-message UID check
`int(uid) > int(last_known_uid)` applied to the range-search results
(`xmail.py` line 127); exactly these entries are parsed and emitted. -/
def fetch_selected (mailbox : List MailEntry) (l : Nat) : List MailEntry :=
  (uid_range_search mailbox l).filter (fun e => decide (l < e.uid))

/-- `EmailNotifier.fetch_new_emails` on a reachable server: determine
the tip UID from the last message; with no prior UID, re-baseline and
emit nothing; with tip ≤ last known UID, emit nothing; otherwise
range-search from the last known UID, keep the entries whose UID is
strictly newer, parse them in order, and return them with the tip. An
empty mailbox returns `([], last_known_uid)`. -/
def fetch_new_emails (n : EmailNotifier) (ext : Externals)
    (mailbox : List MailEntry) (last_known_uid : Option Nat) :
    List EmailData × Option Nat :=
  match mailbox.getLast? with
  | none => ([], last_known_uid)
  | some lastEntry =>
    let current_latest_uid := lastEntry.uid
    match last_known_uid with
    | none => ([], some current_latest_uid)
    | some l =>
      if current_latest_uid ≤ l then ([], some current_latest_uid)
      else
        ((fetch_selected mailbox l).map (fun e => parse_email_data ext n.text_num e.raw),
         some current_latest_uid)

/-- The environment one call to `_process_and_narrate_email` runs in,
for one target and one email: whether `get_using_provider` found a
provider, the system prompt resolved from the conversation persona or
the default persona (falsy means none usable), the LLM completion text
(`none` models a failed call or falsy response), and whether
`event.send` completes without raising. -/
structure NarrateEnv where
  provider : Bool
  system_prompt : Option String
  llm_completion : Option String
  send_ok : Bool
deriving DecidableEq, Repr

/-- What one call to `_process_and_narrate_email` did: sent the raw
fallback text (no provider), returned after failing to load a persona,
returned after a failed or empty LLM call, sent the narrated text, or
swallowed an exception (nothing sent). -/
inductive NarrateOutcome where
  | sentFallbackRaw
  | abortedNoPersona
  | abortedEmptyLLM
  | sentNarrated (text : String)
  | errorSwallowed
deriving DecidableEq, Repr

/-- Whether an outcome actually delivered something to the target. -/
def NarrateOutcome.delivered : NarrateOutcome → Bool
  | .sentFallbackRaw => true
  | .sentNarrated _ => true
  | _ => false

/-- `EmailNarrator._process_and_narrate_email`: with no provider the raw
fallback notification is sent at once; otherwise a missing persona or a
falsy LLM response aborts with only a log line; otherwise the stripped
completion is sent. Every exception (modelled for the sends) is caught
inside the function, so nothing propagates to the caller and no result
is reported back. -/
def process_and_narrate_email (env : NarrateEnv) : NarrateOutcome :=
  if !env.provider then
    if env.send_ok then .sentFallbackRaw else .errorSwallowed
  else if !(pyTruthyStr env.system_prompt) then
    .abortedNoPersona
  else
    match env.llm_completion with
    | none => .abortedEmptyLLM
    | some t =>
      if t == "" then .abortedEmptyLLM
      else if env.send_ok then .sentNarrated t.trim
      else .errorSwallowed

/-- The delivery-side state a monitor cycle sees: the active target set
`self._targets` (as a snapshot list), the keys of `self._event_map`
(targets with a cached event instance), and the narration environment
each (target, email) pair would run in. -/
structure DeliveryEnv where
  targets : List String
  event_map : List String
  narrate_env : String → EmailData → NarrateEnv

/-- `EmailNarrator._broadcast_to_targets` for one email: with no targets
nothing happens; otherwise each target with a cached event instance gets
a `_process_and_narrate_email` task (results gathered and discarded),
and each target without one is only warned about in the log. Returns
`(outcomes of attempted targets, skipped targets)`. -/
def broadcast_to_targets (env : DeliveryEnv) (e : EmailData) :
    List (String × NarrateOutcome) × List String :=
  if env.targets.isEmpty then ([], [])
  else
    ((env.targets.filter (fun t => env.event_map.contains t)).map
        (fun t => (t, process_and_narrate_email (env.narrate_env t e))),
     env.targets.filter (fun t => !env.event_map.contains t))

/-- What one monitor-loop cycle did for one account: the stored last
UID afterwards, whether `_save_state` persisted it this cycle, and the
broadcast record of every new email (in order), each with its attempted
outcomes and skipped targets. -/
structure CycleResult where
  last_uid : Option Nat
  persisted : Bool
  broadcasts : List (EmailData × (List (String × NarrateOutcome) × List String))

/-- One iteration of `EmailNarrator._email_monitor_loop` for a single
account (`main.py` lines 124-141): fetch with the stored UID; if the
returned UID is truthy and differs from the stored one, store and
persist it immediately; then broadcast every new email in order. The
state update happens before any broadcast and ignores their outcomes. -/
def email_monitor_cycle (n : EmailNotifier) (ext : Externals) (env : DeliveryEnv)
    (mailbox : List MailEntry) (last_uid : Option Nat) : CycleResult :=
  let fetched := fetch_new_emails n ext mailbox last_uid
  let new_emails := fetched.1
  let latest_uid := fetched.2
  let doSave := match latest_uid with
    | some u => decide (last_uid ≠ some u)
    | none => false
  let stored := if doSave then latest_uid else last_uid
  ⟨stored, doSave, new_emails.map (fun e => (e, broadcast_to_targets env e))⟩

/-- The target-registry state of the plugin: `self._targets` (a set,
modelled as a duplicate-free list) and the `active_targets` value most
recently written to the durable configuration. -/
structure PluginState where
  targets : List String
  config_active_targets : List String
deriving DecidableEq, Repr

/-- `EmailNarrator._save_active_targets`: writes `list(self._targets)` —
the whole active set, preconfigured members included — to the
`active_targets` configuration key. -/
def save_active_targets (targets : List String) : List String :=
  targets

/-- The target restoration in `EmailNarrator.initialize`: `self._targets`
starts empty and is updated with the preconfigured targets and then with
the saved `active_targets` (set union, modelled on duplicate-free
lists). -/
def restore_targets (preconfigured saved : List String) : List String :=
  preconfigured ++ saved.filter (fun s => !preconfigured.contains s)

/-- `EmailNarrator.cmd_on`: a target already active is left alone;
otherwise it is added to the set and `_save_active_targets` persists the
whole set. -/
def cmd_on (st : PluginState) (uid : String) : PluginState :=
  if st.targets.contains uid then st
  else
    let t := st.targets ++ [uid]
    ⟨t, save_active_targets t⟩

/-- `EmailNarrator.cmd_off`: a target not active is left alone;
otherwise it is discarded from the set and `_save_active_targets`
persists the whole remaining set. -/
def cmd_off (st : PluginState) (uid : String) : PluginState :=
  if !(st.targets.contains uid) then st
  else
    let t := st.targets.filter (fun s => !(s == uid))
    ⟨t, save_active_targets t⟩

/-! Concrete fixtures used by witnesses and counterexamples. -/

/-- A concrete `Externals` record: text extraction and header decoding
act as the identity, dates never parse. -/
def extModel : Externals := ⟨id, id, fun _ => none⟩

/-- A plain-text raw mail whose subject and body are both `s`. -/
def rawPlain (s : String) : RawMail := ⟨some s, none, .single "text/plain" (some s)⟩

/-- A mailbox entry with UID `u` holding `rawPlain s`. -/
def entryAt (u : Nat) (s : String) : MailEntry := ⟨u, rawPlain s⟩

/-- A two-message mailbox with UIDs 1 and 2. -/
def mailboxTwo : List MailEntry := [entryAt 1 "m1", entryAt 2 "m2"]

/-- A four-message mailbox with UIDs 1 to 4. -/
def mailboxFour : List MailEntry :=
  [entryAt 1 "m1", entryAt 2 "m2", entryAt 3 "m3", entryAt 4 "m4"]

/-- One target "t" with a cached event; its narration always reaches the
LLM call and the LLM always fails (falsy response). -/
def envFail : DeliveryEnv := ⟨["t"], ["t"], fun _ _ => ⟨true, some "sys", none, true⟩⟩

/-- One target "t" with a cached event; narration fails exactly for the
email with subject "m3" and succeeds for every other email. -/
def envSel : DeliveryEnv :=
  ⟨["t"], ["t"], fun _ e =>
    if e.subject == "m3" then ⟨true, some "sys", none, true⟩
    else ⟨true, some "sys", some "ok", true⟩⟩

/-- Two active targets, but only "t" has a cached event instance;
narration always succeeds. -/
def envMixed : DeliveryEnv := ⟨["t", "u"], ["t"], fun _ _ => ⟨true, some "sys", some "ok", true⟩⟩

/-- A raw mail with no subject header and an empty plain-text body. -/
def msgEmptyBody : RawMail := ⟨none, none, .single "text/plain" (some "")⟩

/-! Helper lemmas shared by the claim theorems. -/

/-- The per-message UID filter collapses with the range search: the
entries actually emitted are exactly those with UID strictly above the
last known UID. -/
lemma fetch_selected_eq_filter (mailbox : List MailEntry) (l : Nat) :
    fetch_selected mailbox l = mailbox.filter (fun e => decide (l < e.uid)) := by
  unfold fetch_selected uid_range_search
  rw [List.filter_filter]
  apply List.filter_congr
  intro e _
  by_cases h : l < e.uid
  · simp [h, Nat.le_of_lt h]
  · simp [h]

/-- On an empty mailbox `fetch_new_emails` returns the stored UID
unchanged and no messages. -/
lemma fetch_of_getLast_none (n : EmailNotifier) (ext : Externals)
    (mailbox : List MailEntry) (last : Option Nat) (h : mailbox.getLast? = none) :
    fetch_new_emails n ext mailbox last = ([], last) := by
  unfold fetch_new_emails
  rw [h]

/-- On a non-empty mailbox `fetch_new_emails` always reports the tip UID
back, in every branch. -/
lemma fetch_snd_of_getLast_some (n : EmailNotifier) (ext : Externals)
    (mailbox : List MailEntry) (last : Option Nat) (le : MailEntry)
    (h : mailbox.getLast? = some le) :
    (fetch_new_emails n ext mailbox last).2 = some le.uid := by
  unfold fetch_new_emails
  rw [h]
  cases last with
  | none => rfl
  | some l =>
    by_cases hle : le.uid ≤ l
    · simp [hle]
    · simp [hle]

/-- When the tip is not newer than the stored UID, `fetch_new_emails`
returns no messages and the tip. -/
lemma fetch_tip_le_eq (n : EmailNotifier) (ext : Externals)
    (mailbox : List MailEntry) (l : Nat) (le : MailEntry)
    (h : mailbox.getLast? = some le) (hle : le.uid ≤ l) :
    fetch_new_emails n ext mailbox (some l) = ([], some le.uid) := by
  unfold fetch_new_emails
  rw [h]
  simp [hle]

/-- When the tip is strictly newer than the stored UID,
`fetch_new_emails` parses exactly the selected entries and returns the
tip. -/
lemma fetch_tip_gt_eq (n : EmailNotifier) (ext : Externals)
    (mailbox : List MailEntry) (l : Nat) (le : MailEntry)
    (h : mailbox.getLast? = some le) (hlt : l < le.uid) :
    fetch_new_emails n ext mailbox (some l)
      = ((fetch_selected mailbox l).map (fun e => parse_email_data ext n.text_num e.raw),
         some le.uid) := by
  unfold fetch_new_emails
  rw [h]
  simp [Nat.not_le.mpr hlt]

/-- The broadcasts of a cycle are exactly the fetched emails, each
paired with its broadcast record. -/
lemma cycle_broadcasts_eq (n : EmailNotifier) (ext : Externals) (env : DeliveryEnv)
    (mailbox : List MailEntry) (last : Option Nat) :
    (email_monitor_cycle n ext env mailbox last).broadcasts
      = (fetch_new_emails n ext mailbox last).1.map
          (fun e => (e, broadcast_to_targets env e)) := rfl

/-- The stored UID after a cycle is whatever UID the fetch reported,
or the old one when the fetch reported none; delivery plays no part. -/
lemma cycle_last_uid_eq (n : EmailNotifier) (ext : Externals) (env : DeliveryEnv)
    (mailbox : List MailEntry) (last : Option Nat) :
    (email_monitor_cycle n ext env mailbox last).last_uid
      = (match (fetch_new_emails n ext mailbox last).2 with
         | some u => some u
         | none => last) := by
  unfold email_monitor_cycle
  cases h : (fetch_new_emails n ext mailbox last).2 with
  | none => simp [h]
  | some u =>
    simp only [h]
    by_cases he : last = some u
    · subst he
      simp
    · simp [he]

/-! Claim theorems. -/

/-- Claim C4 (confirmed): for an account with no prior watermark and a
non-empty mailbox whose last message is `e` (so the server tip is
`e.uid`), `fetch_new_emails` returns the empty message list together
with the tip: a baseline is established and no historical mail is
surfaced as new. -/
theorem fetch_first_run_returns_baseline (n : EmailNotifier) (ext : Externals)
    (mailbox : List MailEntry) (e : MailEntry) (h : mailbox.getLast? = some e) :
    fetch_new_emails n ext mailbox none = ([], some e.uid) := by
  unfold fetch_new_emails
  rw [h]

/-- Witness for claim C4 at a concrete two-message mailbox. -/
theorem fetch_first_run_returns_baseline_witness :
    fetch_new_emails ⟨150⟩ extModel mailboxTwo none = ([], some 2) :=
  fetch_first_run_returns_baseline ⟨150⟩ extModel mailboxTwo (entryAt 2 "m2") (by decide)

/-- Claim C5 (confirmed): whenever the server tip `e.uid` is not above
the stored watermark `l`, `fetch_new_emails` returns `([], tip)`; hence
re-running it with an unchanged watermark while no new mail arrives
yields an empty message list on every call. -/
theorem fetch_no_new_when_tip_le_watermark (n : EmailNotifier) (ext : Externals)
    (mailbox : List MailEntry) (l : Nat) (e : MailEntry)
    (h : mailbox.getLast? = some e) (hle : e.uid ≤ l) :
    fetch_new_emails n ext mailbox (some l) = ([], some e.uid) :=
  fetch_tip_le_eq n ext mailbox l e h hle

/-- Witness for claim C5: an unchanged watermark equal to the tip gives
an empty result. -/
theorem fetch_no_new_when_tip_le_watermark_witness :
    fetch_new_emails ⟨150⟩ extModel mailboxTwo (some 2) = ([], some 2) :=
  fetch_no_new_when_tip_le_watermark ⟨150⟩ extModel mailboxTwo 2 (entryAt 2 "m2")
    (by decide) (by decide)

/-- Claim C3 counterexample: with watermark 1 and tip 4 there are
`K = 3` new messages and `fetch_new_emails` returns all 3 of them —
there is no per-cycle cap in the code, so for any purported cap `C < K`
the claimed truncation to `C` messages ("never all K") is false. -/
theorem fetch_burst_cap_counterexample :
    (fetch_new_emails ⟨150⟩ extModel mailboxFour (some 1)).1.length = 3
    ∧ (fetch_new_emails ⟨150⟩ extModel mailboxFour (some 1)).2 = some 4 := by
  exact ⟨by decide, by decide⟩

/-- Claim C3 (corrected): `fetch_new_emails` applies no per-cycle cap:
when the tip is above the watermark it returns every mailbox entry with
UID strictly above the watermark (all `K` of them), parsed in mailbox
order, together with the new tip. -/
theorem fetch_returns_all_new_without_cap (n : EmailNotifier) (ext : Externals)
    (mailbox : List MailEntry) (l : Nat) (e : MailEntry)
    (h : mailbox.getLast? = some e) (hlt : l < e.uid) :
    fetch_new_emails n ext mailbox (some l)
      = ((mailbox.filter (fun en => decide (l < en.uid))).map
           (fun en => parse_email_data ext n.text_num en.raw),
         some e.uid) := by
  rw [fetch_tip_gt_eq n ext mailbox l e h hlt, fetch_selected_eq_filter]

/-- Witness for the corrected claim C3 on the four-message mailbox: all
three messages above the watermark come back. -/
theorem fetch_returns_all_new_without_cap_witness :
    fetch_new_emails ⟨150⟩ extModel mailboxFour (some 1)
      = ((mailboxFour.filter (fun en => decide (1 < en.uid))).map
           (fun en => parse_email_data extModel 150 en.raw),
         some 4) :=
  fetch_returns_all_new_without_cap ⟨150⟩ extModel mailboxFour 1 (entryAt 4 "m4")
    (by decide) (by decide)

/-- Claim C9 (confirmed): every entry selected for emission by
`fetch_new_emails` has UID strictly above the last known UID `l`; the
boundary message at UID `l` is matched by the `UID l:*` range search but
filtered out; and in the emitting branch the returned list is exactly
the parses of the selected entries. -/
theorem fetch_emits_only_strictly_newer (n : EmailNotifier) (ext : Externals)
    (mailbox : List MailEntry) (l : Nat) :
    (∀ e ∈ fetch_selected mailbox l, l < e.uid)
    ∧ (∀ e ∈ mailbox, e.uid = l →
        e ∈ uid_range_search mailbox l ∧ e ∉ fetch_selected mailbox l)
    ∧ (∀ le, mailbox.getLast? = some le → l < le.uid →
        (fetch_new_emails n ext mailbox (some l)).1
          = (fetch_selected mailbox l).map (fun e => parse_email_data ext n.text_num e.raw)) := by
  refine ⟨?_, ?_, ?_⟩
  · intro e he
    rw [fetch_selected_eq_filter] at he
    exact of_decide_eq_true (List.mem_filter.mp he).2
  · intro e he heq
    constructor
    · exact List.mem_filter.mpr ⟨he, by simp [heq]⟩
    · intro hmem
      rw [fetch_selected_eq_filter] at hmem
      have := of_decide_eq_true (List.mem_filter.mp hmem).2
      omega
  · intro le hle hlt
    rw [fetch_tip_gt_eq n ext mailbox l le hle hlt]

/-- Witness for claim C9: on the two-message mailbox with watermark 1,
the entry with UID 2 is strictly newer, the boundary entry with UID 1 is
excluded, and the returned list is the parse of the selected entries. -/
theorem fetch_emits_only_strictly_newer_witness :
    (1 < (entryAt 2 "m2").uid)
    ∧ (entryAt 1 "m1") ∉ fetch_selected mailboxTwo 1
    ∧ (fetch_new_emails ⟨150⟩ extModel mailboxTwo (some 1)).1
        = (fetch_selected mailboxTwo 1).map
            (fun e => parse_email_data extModel 150 e.raw) :=
  ⟨(fetch_emits_only_strictly_newer ⟨150⟩ extModel mailboxTwo 1).1 (entryAt 2 "m2") (by decide),
   ((fetch_emits_only_strictly_newer ⟨150⟩ extModel mailboxTwo 1).2.1 (entryAt 1 "m1")
       (by decide) rfl).2,
   (fetch_emits_only_strictly_newer ⟨150⟩ extModel mailboxTwo 1).2.2 (entryAt 2 "m2")
       (by decide) (by decide)⟩

/-- Claim C6 (confirmed): `_parse_email_message` is total (it always
returns a record, so no parsing failure propagates and no message is
dropped); an absent Subject header becomes the placeholder "（无主题）"
(assuming the external MIME decoder leaves that plain placeholder
unchanged, as `decode_header` does); when no body text is extractable
the body is the fixed placeholder "（无文本内容）"; and the body is
truncated to `text_num` characters with "..." appended exactly when the
collapsed body exceeds `text_num`. -/
theorem parse_email_message_placeholders_and_truncation (ext : Externals)
    (text_num : Nat) (msg : RawMail)
    (hdec : ext.decode_header_impl "（无主题）" = "（无主题）") :
    (msg.subject = none → (parse_email_message ext text_num msg).1 = "（无主题）")
    ∧ (collapsedBody ext msg.content = "" →
        (parse_email_message ext text_num msg).2.1 = "（无文本内容）")
    ∧ (text_num < (collapsedBody ext msg.content).length →
        (parse_email_message ext text_num msg).2.1
          = (collapsedBody ext msg.content).take text_num ++ "...")
    ∧ (collapsedBody ext msg.content ≠ "" →
        (collapsedBody ext msg.content).length ≤ text_num →
        (parse_email_message ext text_num msg).2.1 = collapsedBody ext msg.content) := by
  have hfst : (parse_email_message ext text_num msg).1
      = decode_header ext (pyOrStr msg.subject "（无主题）") := rfl
  have hbody : (parse_email_message ext text_num msg).2.1
      = (if (if text_num < (collapsedBody ext msg.content).length
              then (collapsedBody ext msg.content).take text_num ++ "..."
              else collapsedBody ext msg.content) == ""
         then "（无文本内容）"
         else (if text_num < (collapsedBody ext msg.content).length
              then (collapsedBody ext msg.content).take text_num ++ "..."
              else collapsedBody ext msg.content)) := rfl
  refine ⟨?_, ?_, ?_, ?_⟩
  · intro hsub
    rw [hfst, hsub]
    show decode_header ext "（无主题）" = "（无主题）"
    unfold decode_header
    exact hdec
  · intro hfb
    rw [hbody, hfb]
    simp
  · intro hlt
    rw [hbody]
    simp only [if_pos hlt]
    have hne : ((collapsedBody ext msg.content).take text_num ++ "..." == "") = false := by
      apply beq_eq_false_iff_ne.mpr
      intro hc
      have hlen := congrArg String.length hc
      rw [String.length_append] at hlen
      have h3 : ("..." : String).length = 3 := rfl
      have h0 : ("" : String).length = 0 := rfl
      omega
    rw [hne]
    simp
  · intro hne hle
    rw [hbody]
    simp only [if_neg (Nat.not_lt.mpr hle)]
    rw [beq_eq_false_iff_ne.mpr hne]
    simp

/-- Witness for claim C6: a message with no Subject header and an empty
plain-text body parses to both placeholders. -/
theorem parse_email_message_placeholders_witness :
    (parse_email_message extModel 150 msgEmptyBody).1 = "（无主题）"
    ∧ (parse_email_message extModel 150 msgEmptyBody).2.1 = "（无文本内容）" :=
  ⟨(parse_email_message_placeholders_and_truncation extModel 150 msgEmptyBody rfl).1 rfl,
   (parse_email_message_placeholders_and_truncation extModel 150 msgEmptyBody rfl).2.1
     (by decide)⟩

/-- Claim C1 counterexample: with stored watermark 1 and a mailbox whose
tip is UID 2, a single monitor cycle stores and persists watermark 2
even though the message with UID 2 is delivered to no target (its only
attempt aborts on a failed LLM call): the watermark is persisted at the
identifier of an undelivered message, and before delivery is even
attempted. -/
theorem watermark_advances_past_undelivered_counterexample :
    (email_monitor_cycle ⟨150⟩ extModel envFail mailboxTwo (some 1)).last_uid = some 2
    ∧ (email_monitor_cycle ⟨150⟩ extModel envFail mailboxTwo (some 1)).persisted = true
    ∧ (email_monitor_cycle ⟨150⟩ extModel envFail mailboxTwo (some 1)).broadcasts
        = [(⟨"m2", "m2", none⟩, ([("t", .abortedEmptyLLM)], []))]
    ∧ NarrateOutcome.abortedEmptyLLM.delivered = false :=
  ⟨by decide, by decide, by decide, by decide⟩

/-- Claim C1 (corrected): the stored watermark simply follows the UID
reported by the fetch — it is set (and persisted) before any broadcast,
and its value is entirely independent of the delivery environment and
of delivery outcomes; it is not gated on delivery confirmation. -/
theorem watermark_follows_fetched_tip (n : EmailNotifier) (ext : Externals)
    (env env2 : DeliveryEnv) (mailbox : List MailEntry) (last : Option Nat) :
    (email_monitor_cycle n ext env mailbox last).last_uid
        = (email_monitor_cycle n ext env2 mailbox last).last_uid
    ∧ (email_monitor_cycle n ext env mailbox last).last_uid
        = (match (fetch_new_emails n ext mailbox last).2 with
           | some u => some u
           | none => last) :=
  ⟨rfl, cycle_last_uid_eq n ext env mailbox last⟩

/-- Claim C2 counterexample: the message with UID 2 fails its only
delivery attempt (LLM failure, nothing sent), yet the next cycle on the
unchanged mailbox broadcasts nothing — the message is never retried, no
fallback ever runs for it, and it is permanently dropped while the
process keeps running. -/
theorem failed_message_permanently_dropped_counterexample :
    (email_monitor_cycle ⟨150⟩ extModel envFail mailboxTwo (some 1)).broadcasts
        = [(⟨"m2", "m2", none⟩, ([("t", .abortedEmptyLLM)], []))]
    ∧ NarrateOutcome.abortedEmptyLLM.delivered = false
    ∧ (email_monitor_cycle ⟨150⟩ extModel envFail mailboxTwo
        ((email_monitor_cycle ⟨150⟩ extModel envFail mailboxTwo (some 1)).last_uid)).broadcasts
        = [] :=
  ⟨by decide, by decide, by decide⟩

/-- Claim C2 (corrected): the raw-notification fallback is used only
when no LLM provider is available for a target, as a single immediate
attempt; there is no retry bookkeeping at all — after any cycle, running
the next cycle on an unchanged mailbox broadcasts nothing, so a message
whose delivery failed is never attempted again. -/
theorem fallback_only_without_provider_and_no_retry :
    (∀ env : NarrateEnv, env.provider = false → env.send_ok = true →
        process_and_narrate_email env = .sentFallbackRaw)
    ∧ (∀ (n : EmailNotifier) (ext : Externals) (env env2 : DeliveryEnv)
        (mailbox : List MailEntry) (last : Option Nat),
        (email_monitor_cycle n ext env2 mailbox
            ((email_monitor_cycle n ext env mailbox last).last_uid)).broadcasts = []) := by
  constructor
  · intro env hp hs
    unfold process_and_narrate_email
    rw [hp, hs]
    rfl
  · intro n ext env env2 mailbox last
    rw [cycle_broadcasts_eq]
    cases h : mailbox.getLast? with
    | none =>
      rw [fetch_of_getLast_none n ext mailbox _ h]
      rfl
    | some le =>
      have h1 : (email_monitor_cycle n ext env mailbox last).last_uid = some le.uid := by
        rw [cycle_last_uid_eq, fetch_snd_of_getLast_some n ext mailbox last le h]
      rw [h1, fetch_tip_le_eq n ext mailbox le.uid le h (Nat.le_refl le.uid)]
      rfl

/-- Witness for the corrected claim C2: with no provider the fallback
raw text is sent at once, and a second cycle on the unchanged mailbox
broadcasts nothing. -/
theorem fallback_only_without_provider_and_no_retry_witness :
    process_and_narrate_email ⟨false, none, none, true⟩ = .sentFallbackRaw
    ∧ (email_monitor_cycle ⟨150⟩ extModel envFail mailboxTwo
        ((email_monitor_cycle ⟨150⟩ extModel envFail mailboxTwo (some 1)).last_uid)).broadcasts
        = [] :=
  ⟨fallback_only_without_provider_and_no_retry.1 ⟨false, none, none, true⟩ rfl rfl,
   fallback_only_without_provider_and_no_retry.2 ⟨150⟩ extModel envFail envFail mailboxTwo (some 1)⟩

/-- Claim C8 counterexample: in the batch [m2, m3, m4] the delivery of
m3 fails for its only target, yet m4 is still attempted (and delivered)
in the same cycle, and the watermark jumps to 4: processing does not
stop at the failed message. -/
theorem batch_not_stopped_on_failure_counterexample :
    ((email_monitor_cycle ⟨150⟩ extModel envSel mailboxFour (some 1)).broadcasts.map
        (fun b => (b.1.subject, b.2.1.map (fun p => p.2.delivered))))
      = [("m2", [true]), ("m3", [false]), ("m4", [true])]
    ∧ (email_monitor_cycle ⟨150⟩ extModel envSel mailboxFour (some 1)).last_uid = some 4 :=
  ⟨by decide, by decide⟩

/-- Claim C8 (corrected): the batch is processed in fetch order but
never cut short: every message returned by the fetch is broadcast in the
same cycle, whatever the delivery outcomes of earlier messages. -/
theorem batch_broadcast_unconditionally (n : EmailNotifier) (ext : Externals)
    (env : DeliveryEnv) (mailbox : List MailEntry) (last : Option Nat) :
    (email_monitor_cycle n ext env mailbox last).broadcasts.map Prod.fst
      = (fetch_new_emails n ext mailbox last).1 := by
  rw [cycle_broadcasts_eq, List.map_map]
  have hcomp : (Prod.fst ∘ fun e => (e, broadcast_to_targets env e)) = @id EmailData := rfl
  rw [hcomp, List.map_id]

/-- Claim C7 counterexample: with preconfigured target "p" restored into
the active set, enabling a dynamic target "d" persists the whole set —
the preconfigured target "p" is present in the persisted value, and
afterwards removing "d" leaves "p" persisted, not the empty set. -/
theorem preconfigured_target_persisted_counterexample :
    ((cmd_on ⟨restore_targets ["p"] [], []⟩ "d").config_active_targets).contains "p" = true
    ∧ (cmd_on ⟨restore_targets ["p"] [], []⟩ "d").config_active_targets = ["p", "d"]
    ∧ (cmd_off (cmd_on ⟨restore_targets ["p"] [], []⟩ "d") "d").config_active_targets = ["p"] :=
  ⟨by decide, by decide, by decide⟩

/-- Claim C7 (corrected): `_save_active_targets` writes the entire
active set, preconfigured members included: enabling a dynamic target
`d` persists the preconfigured targets together with `d`, and disabling
`d` again leaves the persisted set equal to the preconfigured set (not
the empty set). -/
theorem save_targets_persists_full_set (pre p0 : List String) (d : String)
    (hd : pre.contains d = false) :
    (cmd_on ⟨restore_targets pre [], p0⟩ d).config_active_targets = pre ++ [d]
    ∧ (cmd_off (cmd_on ⟨restore_targets pre [], p0⟩ d) d).config_active_targets = pre := by
  have hrt : restore_targets pre [] = pre := by
    simp [restore_targets]
  have hnotmem : d ∉ pre := by
    simp at hd
    exact hd
  have hon : cmd_on ⟨restore_targets pre [], p0⟩ d
      = ⟨pre ++ [d], save_active_targets (pre ++ [d])⟩ := by
    unfold cmd_on
    rw [hrt, hd]
    simp
  refine ⟨by rw [hon]; rfl, ?_⟩
  rw [hon]
  unfold cmd_off
  have hcont : (pre ++ [d]).contains d = true := by
    simp
  rw [hcont]
  show (pre ++ [d]).filter (fun s => !(s == d)) = pre
  rw [List.filter_append]
  have h1 : pre.filter (fun s => !(s == d)) = pre := by
    apply List.filter_eq_self.mpr
    intro a ha
    simp only [Bool.not_eq_eq_eq_not, Bool.not_true, beq_eq_false_iff_ne]
    intro hc
    exact hnotmem (hc ▸ ha)
  have h2 : ([d] : List String).filter (fun s => !(s == d)) = [] := by
    simp
  rw [h1, h2, List.append_nil]

/-- Witness for the corrected claim C7 at a concrete preconfigured
target "p" and dynamic target "d". -/
theorem save_targets_persists_full_set_witness :
    (cmd_on ⟨restore_targets ["p"] [], []⟩ "d").config_active_targets = ["p"] ++ ["d"]
    ∧ (cmd_off (cmd_on ⟨restore_targets ["p"] [], []⟩ "d") "d").config_active_targets = ["p"] :=
  save_targets_persists_full_set ["p"] [] "d" (by decide)

/-- Claim C10 (confirmed): during a broadcast, every active target
without a cached event instance receives no delivery attempt at all and
is only recorded as skipped (a log warning), while the attempted list is
exactly one narration per target that does have an event instance; and
the cycle's watermark bookkeeping (stored value and persistence) is
entirely unaffected by the delivery environment. -/
theorem broadcast_skips_targets_without_event (env : DeliveryEnv) (e : EmailData) :
    (∀ t, t ∈ env.targets → env.event_map.contains t = false →
        t ∈ (broadcast_to_targets env e).2
        ∧ ∀ p ∈ (broadcast_to_targets env e).1, p.1 ≠ t)
    ∧ (broadcast_to_targets env e).1
        = (env.targets.filter (fun t => env.event_map.contains t)).map
            (fun t => (t, process_and_narrate_email (env.narrate_env t e)))
    ∧ (∀ (n : EmailNotifier) (ext : Externals) (mailbox : List MailEntry)
        (last : Option Nat) (env2 : DeliveryEnv),
        (email_monitor_cycle n ext env mailbox last).last_uid
          = (email_monitor_cycle n ext env2 mailbox last).last_uid
        ∧ (email_monitor_cycle n ext env mailbox last).persisted
          = (email_monitor_cycle n ext env2 mailbox last).persisted) := by
  have hb : (broadcast_to_targets env e).1
      = (env.targets.filter (fun t => env.event_map.contains t)).map
          (fun t => (t, process_and_narrate_email (env.narrate_env t e))) := by
    unfold broadcast_to_targets
    by_cases h : env.targets.isEmpty
    · have : env.targets = [] := List.isEmpty_iff.mp h
      rw [this] at *
      simp [h]
    · simp [h]
  have hs : (broadcast_to_targets env e).2
      = env.targets.filter (fun t => !env.event_map.contains t) := by
    unfold broadcast_to_targets
    by_cases h : env.targets.isEmpty
    · have : env.targets = [] := List.isEmpty_iff.mp h
      rw [this] at *
      simp [h]
    · simp [h]
  refine ⟨?_, hb, ?_⟩
  · intro t ht hno
    constructor
    · rw [hs]
      exact List.mem_filter.mpr ⟨ht, by rw [hno]; rfl⟩
    · intro p hp
      rw [hb] at hp
      rcases List.mem_map.mp hp with ⟨t2, ht2, hpt⟩
      have hcont : env.event_map.contains t2 = true := (List.mem_filter.mp ht2).2
      intro hq
      rw [← hpt] at hq
      simp at hq
      rw [hq] at hcont
      rw [hcont] at hno
      exact Bool.true_eq_false.mp hno
  · intro n ext mailbox last env2
    exact ⟨rfl, rfl⟩

/-- Witness for claim C10: target "u" is active but has no cached event
instance, so it is skipped while "t" is attempted, and the watermark
result is the same under a completely different delivery environment. -/
theorem broadcast_skips_targets_without_event_witness :
    "u" ∈ (broadcast_to_targets envMixed ⟨"s", "c", none⟩).2
    ∧ (email_monitor_cycle ⟨150⟩ extModel envMixed mailboxTwo (some 1)).last_uid
        = (email_monitor_cycle ⟨150⟩ extModel envFail mailboxTwo (some 1)).last_uid :=
  ⟨((broadcast_skips_targets_without_event envMixed ⟨"s", "c", none⟩).1 "u"
      (by decide) (by decide)).1,
   ((broadcast_skips_targets_without_event envMixed ⟨"s", "c", none⟩).2.2 ⟨150⟩ extModel
      mailboxTwo (some 1) envFail).1⟩
